import Mathlib

/-!
Verification development for the Moodle course synchronisation and reporting
pipeline.  The definitions below are a shallow embedding of the two source
files that the claims reference:

* `complete-course-dashboard.js` — the dashboard flattener and statistics
  aggregator (`getAllStudentCompletions`, `calculateStudentStatistics`,
  `calculateActivityStatistics`, `isStudentActive`, `getPerformanceLevel`).
* the API server file holding `POST /api/moodle/sync/course/:courseId` — the
  sync orchestrator (steps 1–5, here `flattenActivities`, `step4`, `step5`,
  `syncCourse`).

Remote I/O is modelled by passing the fetched JSON shapes as values: the LMS
responses become plain structures with `Option` fields for loosely-typed JSON
fields, and the per-student completion fetch becomes a function
`Nat → Except String (List MoodleStatus)` (the `Except.error` case is the
thrown per-student error that the route catches).  Persistence upserts are
modelled as succeeding, so the persisted record sets are exactly the record
lists the code builds.  UNIX-second timestamps stay `Nat`; `new Date(t*1000)`
is modelled by the millisecond count `t * 1000`; the wall clock of a run
(`new Date()` / `Date.now()`) is an explicit `now` parameter.
-/

namespace MoodleDb

/-- Raw per-activity completion status entry as returned by the LMS function
`core_completion_get_activities_completion_status`; every field except `cmid`
is loosely typed in the JSON and therefore optional here. -/
structure MoodleStatus where
  cmid : Nat
  state : Option Nat
  timecompleted : Option Nat
  tracking : Option Nat
  overrideby : Option Nat
deriving DecidableEq

/-- Raw course module (activity) inside a section of the
`core_course_get_contents` response. -/
structure MoodleModule where
  id : Nat
  name : String
  modname : String
  modplural : String
  indent : Nat
  url : Option String
  description : Option String
  visible : Nat
  visibleoncoursepage : Nat
  uservisible : Option Bool
  completion : Option Nat
  completionexpected : Option Nat
  added : Option Nat
deriving DecidableEq

/-- Raw course section of the `core_course_get_contents` response.  The JS
field `section` is a Lean keyword, so it is called `sectionNo` here. -/
structure MoodleSection where
  id : Nat
  sectionNo : Nat
  name : String
  summary : Option String
  visible : Nat
  modules : List MoodleModule
deriving DecidableEq

/-- Raw course record of the `core_course_get_courses` response. -/
structure MoodleCourse where
  id : Nat
  shortname : String
  fullname : String
  categoryid : Option Nat
  summary : Option String
  format : Option String
  startdate : Option Nat
  enddate : Option Nat
  visible : Nat
deriving DecidableEq

/-- Raw role entry attached to an enrolled user. -/
structure MoodleRole where
  shortname : String
  roleid : Nat
deriving DecidableEq

/-- Raw enrolled user of the `core_enrol_get_enrolled_users` response. -/
structure MoodleUser where
  id : Nat
  username : String
  firstname : String
  lastname : String
  email : Option String
  firstaccess : Option Nat
  lastaccess : Option Nat
  lastcourseaccess : Option Nat
  roles : Option (List MoodleRole)
deriving DecidableEq

/-- The dashboard helper `formatTimestamp`: `null` for an absent or zero UNIX
timestamp, otherwise the formatted instant (modelled by its second count,
which determines the ISO-like string uniquely). -/
def formatTimestamp : Option Nat → Option Nat
  | none => none
  | some 0 => none
  | some t => some t

/-- JS `s || d` on an optional string: the default applies when the value is
absent or the empty string (both falsy). -/
def strOr : Option String → String → String
  | none, d => d
  | some "", d => d
  | some s, _ => s

/-- JS `s || null` on an optional string: an empty string collapses to null. -/
def strOrNone : Option String → Option String
  | none => none
  | some "" => none
  | some s => some s

/-- Values a JS floating-point division of two nonnegative integer counts can
take: `0/0` is `NaN`, `n/0` with `n > 0` is `Infinity`, otherwise a finite
rational. -/
inductive JsNum where
  | nan : JsNum
  | posInf : JsNum
  | val : ℚ → JsNum
deriving DecidableEq

/-- JS division `a / b` of two nonnegative integer counts. -/
def jsDivNat (a b : Nat) : JsNum :=
  if b = 0 then (if a = 0 then JsNum.nan else JsNum.posInf)
  else JsNum.val ((a : ℚ) / (b : ℚ))

/-- JS `x >= c` against a finite numeric literal: false for `NaN`, true for
`Infinity`. -/
def jsGe (x : JsNum) (c : ℚ) : Bool :=
  match x with
  | JsNum.nan => false
  | JsNum.posInf => true
  | JsNum.val q => decide (c ≤ q)

/-- Idealised `x.toFixed(2)` read back as a number (`parseFloat`): rounding to
two decimal places. -/
def toFixed2 (q : ℚ) : ℚ := ((round (q * 100) : ℤ) : ℚ) / 100

/-- Substring search on character lists: does `pat` occur contiguously? -/
def charsContain (pat : List Char) : List Char → Bool
  | [] => List.isPrefixOf pat []
  | c :: t => List.isPrefixOf pat (c :: t) || charsContain pat t

/-- JS `String.prototype.includes`. -/
def jsIncludes (s pat : String) : Bool := charsContain pat.data s.data

/-! Dashboard side: `complete-course-dashboard.js`. -/

/-- Student record produced by `getEnrolledStudentsDetails`; access
timestamps have already gone through `formatTimestamp`. -/
structure DashStudent where
  id : Nat
  username : String
  firstname : String
  lastname : String
  fullname : String
  email : String
  firstaccess : Option Nat
  lastaccess : Option Nat
  lastcourseaccess : Option Nat
  roles : String
deriving DecidableEq

/-- The `getEnrolledStudentsDetails` per-user mapping. -/
def mkDashStudent (u : MoodleUser) : DashStudent :=
  { id := u.id
    username := u.username
    firstname := u.firstname
    lastname := u.lastname
    fullname := u.firstname ++ " " ++ u.lastname
    email := strOr u.email ""
    firstaccess := formatTimestamp u.firstaccess
    lastaccess := formatTimestamp u.lastaccess
    lastcourseaccess := formatTimestamp u.lastcourseaccess
    roles := match u.roles with
      | some rs => String.intercalate ", " (rs.map (fun r => r.shortname))
      | none => "student" }

/-- Activity record produced by `getCourseContentDetails` for one module. -/
structure DashActivity where
  activityId : Nat
  activityName : String
  activityType : String
  modplural : String
  indent : Nat
  url : String
  visible : Bool
  visibleoncoursepage : Bool
  uservisible : Bool
  published : Bool
  hasCompletion : Bool
  completionExpected : Nat
  completionExpectedDate : Option Nat
  addedDate : Option Nat
  description : String
deriving DecidableEq

/-- The per-module mapping inside `getCourseContentDetails`. -/
def mkDashActivity (m : MoodleModule) : DashActivity :=
  { activityId := m.id
    activityName := m.name
    activityType := m.modname
    modplural := m.modplural
    indent := m.indent
    url := strOr m.url ""
    visible := m.visible = 1
    visibleoncoursepage := m.visibleoncoursepage = 1
    uservisible := m.uservisible ≠ some false
    published := m.visible = 1 ∧ m.visibleoncoursepage = 1
    hasCompletion := 0 < m.completion.getD 0
    completionExpected := m.completionexpected.getD 0
    completionExpectedDate := formatTimestamp m.completionexpected
    addedDate := formatTimestamp m.added
    description := strOr m.description "" }

/-- Section record produced by `getCourseContentDetails`. -/
structure DashSection where
  sectionId : Nat
  sectionNumber : Nat
  sectionName : String
  summary : String
  visible : Bool
  activities : List DashActivity
deriving DecidableEq

/-- The per-section mapping of `getCourseContentDetails`. -/
def mkDashSection (s : MoodleSection) : DashSection :=
  { sectionId := s.id
    sectionNumber := s.sectionNo
    sectionName := s.name
    summary := strOr s.summary ""
    visible := s.visible = 1
    activities := s.modules.map mkDashActivity }

/-- The dashboard helper `getCompletionStatus` (applied to the raw, possibly
absent `completion.state`). -/
def getCompletionStatus : Option Nat → String
  | some 0 => "Incomplete"
  | some 1 => "Complete"
  | some 2 => "Complete (Passed)"
  | some 3 => "Complete (Failed)"
  | _ => "Unknown"

/-- The dashboard helper `getTrackingType`. -/
def getTrackingType : Option Nat → String
  | some 0 => "None"
  | some 1 => "Manual"
  | some 2 => "Automatic"
  | _ => "Unknown"

/-- One flattened completion record pushed by `getAllStudentCompletions`. -/
structure DashCompletion where
  studentId : Nat
  studentName : String
  studentEmail : String
  sectionNumber : Nat
  sectionName : String
  activityId : Nat
  activityName : String
  activityType : String
  published : Bool
  visible : Bool
  hasCompletionTracking : Bool
  completionState : Nat
  completionStatus : String
  isCompleted : Bool
  isPassed : Bool
  isFailed : Bool
  completionDate : Option Nat
  trackingType : String
  overriddenBy : Option Nat
deriving DecidableEq

/-- The `completionMap` lookup of `getAllStudentCompletions`: object indexing
by `cmid`, later assignments overwriting earlier ones. -/
def lookupStatus (statuses : List MoodleStatus) (cmid : Nat) : Option MoodleStatus :=
  statuses.foldl (fun acc c => if c.cmid = cmid then some c else acc) none

/-- The record `getAllStudentCompletions` pushes for one student and one
activity (the `completion` object is `{}` when the student has no status
entry for the activity, so every raw field reads as absent). -/
def mkDashCompletion (student : DashStudent) (statuses : List MoodleStatus)
    (sec : DashSection) (act : DashActivity) : DashCompletion :=
  let comp := lookupStatus statuses act.activityId
  let st := comp.bind (fun c => c.state)
  { studentId := student.id
    studentName := student.fullname
    studentEmail := student.email
    sectionNumber := sec.sectionNumber
    sectionName := sec.sectionName
    activityId := act.activityId
    activityName := act.activityName
    activityType := act.activityType
    published := act.published
    visible := act.visible
    hasCompletionTracking := act.hasCompletion
    completionState := st.getD 0
    completionStatus := getCompletionStatus st
    isCompleted := decide (1 ≤ st.getD 0)
    isPassed := decide (st.getD 0 = 2)
    isFailed := decide (st.getD 0 = 3)
    completionDate := formatTimestamp (comp.bind (fun c => c.timecompleted))
    trackingType := getTrackingType (comp.bind (fun c => c.tracking))
    overriddenBy := comp.bind (fun c => c.overrideby) }

/-- The success-path body of `getAllStudentCompletions` for one student:
walk every section and every activity, emitting one record each. -/
def flattenStudentCompletions (student : DashStudent) (statuses : List MoodleStatus)
    (sections : List DashSection) : List DashCompletion :=
  sections.flatMap (fun sec => sec.activities.map (mkDashCompletion student statuses sec))

/-- `getAllStudentCompletions`: sequential per-student fetch; a thrown
per-student error is caught, logged and skipped, contributing no records. -/
def getAllStudentCompletions (students : List DashStudent) (sections : List DashSection)
    (fetch : Nat → Except String (List MoodleStatus)) : List DashCompletion :=
  students.flatMap (fun student =>
    match fetch student.id with
    | Except.ok statuses => flattenStudentCompletions student statuses sections
    | Except.error _ => [])

/-- `isStudentActive`: false when `lastcourseaccess` is absent, otherwise a
7-day window against the current time (`nowMs` in milliseconds). -/
def isStudentActive (nowMs : Nat) (student : DashStudent) : Bool :=
  match student.lastcourseaccess with
  | none => false
  | some t =>
      decide ((((nowMs : ℚ) - ((t * 1000 : Nat) : ℚ)) / (1000 * 60 * 60 * 24)) ≤ 7)

/-- `getPerformanceLevel`: fixed thresholds on the completion ratio, a JS
number (possibly `NaN` or `Infinity`). -/
def getPerformanceLevel (completionRate : JsNum) : String :=
  if jsGe completionRate (9/10) then "Excellent"
  else if jsGe completionRate (7/10) then "Good"
  else if jsGe completionRate (1/2) then "Average"
  else if jsGe completionRate (3/10) then "Below Average"
  else "Poor"

/-- One row of `calculateStudentStatistics`. -/
structure StudentStat where
  studentId : Nat
  studentName : String
  studentEmail : String
  totalActivities : Nat
  activitiesCompleted : Nat
  activitiesPassed : Nat
  activitiesFailed : Nat
  activitiesRemaining : Int
  completionPercentage : ℚ
  passPercentage : ℚ
  isActive : Bool
  performanceLevel : String
deriving DecidableEq

/-- `calculateStudentStatistics`: per-student rollup over the flattened
completion records, restricted to records of activities with completion
tracking; the denominator is the number of tracked activities. -/
def calculateStudentStatistics (nowMs : Nat) (students : List DashStudent)
    (sections : List DashSection) (completions : List DashCompletion) : List StudentStat :=
  let trackedActivities :=
    (sections.flatMap (fun sec => sec.activities.filter (fun a => a.hasCompletion))).length
  students.map (fun student =>
    let studentCompletions := completions.filter
      (fun c => decide (c.studentId = student.id) && c.hasCompletionTracking)
    let completed := (studentCompletions.filter (fun c => c.isCompleted)).length
    let passed := (studentCompletions.filter (fun c => c.isPassed)).length
    let failed := (studentCompletions.filter (fun c => c.isFailed)).length
    { studentId := student.id
      studentName := student.fullname
      studentEmail := student.email
      totalActivities := trackedActivities
      activitiesCompleted := completed
      activitiesPassed := passed
      activitiesFailed := failed
      activitiesRemaining := (trackedActivities : Int) - (completed : Int)
      completionPercentage :=
        if 0 < trackedActivities then
          toFixed2 (((completed : ℚ) / (trackedActivities : ℚ)) * 100)
        else 0
      passPercentage :=
        if 0 < completed then toFixed2 (((passed : ℚ) / (completed : ℚ)) * 100) else 0
      isActive := isStudentActive nowMs student
      performanceLevel := getPerformanceLevel (jsDivNat completed trackedActivities) })

/-- One row of `calculateActivityStatistics`. -/
structure ActivityStat where
  activityId : Nat
  activityName : String
  activityType : String
  sectionName : String
  published : Bool
  hasTracking : Bool
  totalStudents : Nat
  studentsCompleted : Nat
  studentsPassed : Nat
  studentsFailed : Nat
  studentsNotStarted : Int
  completionRate : ℚ
  passRate : ℚ
deriving DecidableEq

/-- `calculateActivityStatistics`: per-activity rollup over the flattened
completion records of that activity that carry completion tracking. -/
def calculateActivityStatistics (students : List DashStudent)
    (sections : List DashSection) (completions : List DashCompletion) : List ActivityStat :=
  let totalStudents := students.length
  sections.flatMap (fun sec => sec.activities.map (fun act =>
    let activityCompletions := completions.filter
      (fun c => decide (c.activityId = act.activityId) && c.hasCompletionTracking)
    let completed := (activityCompletions.filter (fun c => c.isCompleted)).length
    let passed := (activityCompletions.filter (fun c => c.isPassed)).length
    let failed := (activityCompletions.filter (fun c => c.isFailed)).length
    { activityId := act.activityId
      activityName := act.activityName
      activityType := act.activityType
      sectionName := sec.sectionName
      published := act.published
      hasTracking := act.hasCompletion
      totalStudents := totalStudents
      studentsCompleted := completed
      studentsPassed := passed
      studentsFailed := failed
      studentsNotStarted := (totalStudents : Int) - (completed : Int)
      completionRate :=
        if 0 < totalStudents then
          toFixed2 (((completed : ℚ) / (totalStudents : ℚ)) * 100)
        else 0
      passRate :=
        if 0 < completed then toFixed2 (((passed : ℚ) / (completed : ℚ)) * 100) else 0 }))

/-! Sync-endpoint side: `POST /api/moodle/sync/course/:courseId`. -/

/-- Row of the `courses` table as built in step 1 of the sync route;
`updated_at` (and every other date) is a millisecond epoch count. -/
structure CourseRow where
  course_id : Nat
  short_name : String
  full_name : String
  category_id : Nat
  category_name : Option String
  summary : String
  format : String
  start_date : Option Nat
  end_date : Option Nat
  visible : Bool
  updated_at : Nat
deriving DecidableEq

/-- Step 1's `courseData` object. -/
def mkCourseRow (now : Nat) (course : MoodleCourse) : CourseRow :=
  { course_id := course.id
    short_name := course.shortname
    full_name := course.fullname
    category_id := course.categoryid.getD 0
    category_name := none
    summary := strOr course.summary ""
    format := strOr course.format "topics"
    start_date := (formatTimestamp course.startdate).map (fun t => t * 1000)
    end_date := (formatTimestamp course.enddate).map (fun t => t * 1000)
    visible := course.visible = 1
    updated_at := now }

/-- Row of the `enrollments` table as built in step 2. -/
structure EnrollRow where
  course_id : Nat
  student_id : Nat
  student_name : String
  student_email : String
  student_first_name : String
  student_last_name : String
  enrollment_date : Nat
  role : String
  status : String
  updated_at : Nat
deriving DecidableEq

/-- Step 2's per-student enrollment object; `enrollment_date` falls back to
the current wall clock when `firstaccess` is absent or zero. -/
def mkEnrollRow (courseId now : Nat) (student : MoodleUser) : EnrollRow :=
  { course_id := courseId
    student_id := student.id
    student_name := student.firstname ++ " " ++ student.lastname
    student_email := strOr student.email ""
    student_first_name := student.firstname
    student_last_name := student.lastname
    enrollment_date := match formatTimestamp student.firstaccess with
      | some t => t * 1000
      | none => now
    role := "student"
    status := "active"
    updated_at := now }

/-- Step 2's student filter: the user carries a role with short name
`student` or numeric role id 5. -/
def isStudentUser (user : MoodleUser) : Bool :=
  match user.roles with
  | none => false
  | some rs => rs.any (fun role => role.shortname == "student" || role.roleid == 5)

/-- Row of the `activities` table as built in step 3. -/
structure ActivityRow where
  course_id : Nat
  activity_id : Nat
  section_id : Nat
  section_number : Nat
  section_name : String
  activity_name : String
  activity_type : String
  activity_url : Option String
  description : String
  visible : Bool
  has_completion : Bool
  completion_expected : Option Nat
  updated_at : Nat
deriving DecidableEq

/-- Step 3: flatten sections into one `activities` row per module. -/
def flattenActivities (courseId now : Nat) (contents : List MoodleSection) : List ActivityRow :=
  contents.flatMap (fun sec => sec.modules.map (fun m =>
    { course_id := courseId
      activity_id := m.id
      section_id := sec.id
      section_number := sec.sectionNo
      section_name := sec.name
      activity_name := m.name
      activity_type := m.modname
      activity_url := strOrNone m.url
      description := strOr m.description ""
      visible := m.visible = 1
      has_completion := 0 < m.completion.getD 0
      completion_expected := (formatTimestamp m.completionexpected).map (fun t => t * 1000)
      updated_at := now }))

/-- Row of the `activity_completions` table as built in step 4. -/
structure CompletionRow where
  course_id : Nat
  student_id : Nat
  activity_id : Nat
  activity_name : String
  activity_type : String
  completion_state : Nat
  is_completed : Bool
  is_passed : Bool
  is_failed : Bool
  time_completed : Option Nat
  tracking_type : Nat
  updated_at : Nat
deriving DecidableEq

/-- The completion row step 4 pushes for one raw status entry: the activity
name and type are looked up in the step-3 list (empty strings when the
`cmid` is unknown), and the boolean flags come from the raw `status.state`
(absent compares as false in JS). -/
def mkCompletionRow (courseId now : Nat) (allActivities : List ActivityRow)
    (studentId : Nat) (status : MoodleStatus) : CompletionRow :=
  let activity := allActivities.find? (fun a => a.activity_id == status.cmid)
  { course_id := courseId
    student_id := studentId
    activity_id := status.cmid
    activity_name := match activity with | some a => a.activity_name | none => ""
    activity_type := match activity with | some a => a.activity_type | none => ""
    completion_state := status.state.getD 0
    is_completed := match status.state with | none => false | some s => decide (1 ≤ s)
    is_passed := decide (status.state = some 2)
    is_failed := decide (status.state = some 3)
    time_completed := (formatTimestamp status.timecompleted).map (fun t => t * 1000)
    tracking_type := status.tracking.getD 0
    updated_at := now }

/-- The log line printed for a per-student fetch error that is not a
"No completion criteria" error. -/
def studentErrorLog (studentId : Nat) (msg : String) : String :=
  "Error fetching completions for student " ++ toString studentId ++ ": " ++ msg

/-- Step 4: the sequential per-student completion loop.  A successful fetch
contributes one row per returned status entry; a thrown error is caught and
the loop continues — the message is only written to the console log (and even
that only when it does not contain "No completion criteria"); nothing is
appended to the result tally's error list.  Returns the accumulated
`allCompletions` list and the console log lines. -/
def step4 (courseId now : Nat) (students : List MoodleUser)
    (allActivities : List ActivityRow)
    (fetch : Nat → Except String (List MoodleStatus)) :
    List CompletionRow × List String :=
  students.foldl (fun acc student =>
    match fetch student.id with
    | Except.ok statuses =>
        (acc.1 ++ statuses.map (mkCompletionRow courseId now allActivities student.id), acc.2)
    | Except.error msg =>
        (acc.1,
         if jsIncludes msg "No completion criteria" then acc.2
         else acc.2 ++ [studentErrorLog student.id msg]))
    ([], [])

/-- Row of the `course_completions` table as built in step 5. -/
structure CourseCompletionRow where
  course_id : Nat
  student_id : Nat
  total_activities : Nat
  completed_activities : Nat
  completion_percentage : ℚ
  is_course_completed : Bool
  completion_date : Option Nat
  updated_at : Nat
deriving DecidableEq

/-- Step 5: the per-student course completion summary.  The whole step is
skipped (no rows) when there is no trackable activity; a student's
`completed_activities` counts every completed completion row of the student,
with no restriction to trackable activities; `completion_date` is the
`time_completed` of the last completed row in fetch order. -/
def step5 (courseId now : Nat) (students : List MoodleUser)
    (allActivities : List ActivityRow) (allCompletions : List CompletionRow) :
    List CourseCompletionRow :=
  let trackableActivities := allActivities.filter (fun a => a.has_completion)
  if 0 < trackableActivities.length then
    students.map (fun student =>
      let studentCompletions := allCompletions.filter
        (fun c => decide (c.student_id = student.id) && c.is_completed)
      let completedCount := studentCompletions.length
      let totalCount := trackableActivities.length
      let completionPercentage : ℚ :=
        if 0 < totalCount then ((completedCount : ℚ) / (totalCount : ℚ)) * 100 else 0
      let isCourseCompleted : Bool := decide (100 ≤ completionPercentage)
      { course_id := courseId
        student_id := student.id
        total_activities := totalCount
        completed_activities := completedCount
        completion_percentage := toFixed2 completionPercentage
        is_course_completed := isCourseCompleted
        completion_date :=
          if isCourseCompleted && decide (0 < studentCompletions.length) then
            match studentCompletions.getLast? with
            | some c => c.time_completed
            | none => none
          else none
        updated_at := now })
  else []

/-- The data the route pulls from the LMS before the per-student loop. -/
structure LmsData where
  courses : List MoodleCourse
  enrolledUsers : List MoodleUser
  contents : List MoodleSection
deriving DecidableEq

/-- The record sets the sync run upserts into the backing store (upserts are
modelled as succeeding). -/
structure PersistedSets where
  courses : List CourseRow
  enrollments : List EnrollRow
  activities : List ActivityRow
  activity_completions : List CompletionRow
  course_completions : List CourseCompletionRow
deriving DecidableEq

/-- The route's JSON response (success case), keeping the parts the claims
talk about: the `success` flag, the tally's `errors` list, the console log
of step 4, and the persisted record sets. -/
structure SyncResponse where
  success : Bool
  errors : List String
  log : List String
  persisted : PersistedSets
deriving DecidableEq

/-- The step-2 student filter applied to the fetched enrolled users. -/
def studentsOf (lms : LmsData) : List MoodleUser :=
  lms.enrolledUsers.filter isStudentUser

/-- The whole sync route body: `none` models the 404 response when the course
id is not in the fetched course list; otherwise steps 1–5 run in order and
the response reports `success: true` (upserts are modelled as succeeding, so
no per-kind failure is tallied and the tally's error list stays empty —
step 4 in particular never appends to it). -/
def syncCourse (courseId now : Nat) (lms : LmsData)
    (fetch : Nat → Except String (List MoodleStatus)) : Option SyncResponse :=
  match lms.courses.find? (fun c => c.id == courseId) with
  | none => none
  | some course =>
      let students := studentsOf lms
      let allActivities := flattenActivities courseId now lms.contents
      let fourth := step4 courseId now students allActivities fetch
      some
        { success := true
          errors := []
          log := fourth.2
          persisted :=
            { courses := [mkCourseRow now course]
              enrollments := students.map (mkEnrollRow courseId now)
              activities := allActivities
              activity_completions := fourth.1
              course_completions := step5 courseId now students allActivities fourth.1 } }

/-! Spec-side comparison definitions.  Each follows the specification's words
for a quantity the claims compare against the code's computation. -/

/-- Following the spec's words for the aggregator (§4.4, §8): the number of
completed completion records of one student restricted to activities with
completion tracking. -/
def specDashStudentCompleted (completions : List DashCompletion) (studentId : Nat) : Nat :=
  (completions.filter (fun c =>
    (decide (c.studentId = studentId) && c.hasCompletionTracking) && c.isCompleted)).length

/-- Following the spec's words for the aggregator (§4.4): the number of
passed completion records of one student restricted to activities with
completion tracking. -/
def specDashStudentPassed (completions : List DashCompletion) (studentId : Nat) : Nat :=
  (completions.filter (fun c =>
    (decide (c.studentId = studentId) && c.hasCompletionTracking) && c.isPassed)).length

/-- Following the spec's words for the aggregator (§4.4): the number of
failed completion records of one student restricted to activities with
completion tracking. -/
def specDashStudentFailed (completions : List DashCompletion) (studentId : Nat) : Nat :=
  (completions.filter (fun c =>
    (decide (c.studentId = studentId) && c.hasCompletionTracking) && c.isFailed)).length

/-- Following the spec's words for the aggregator (§4.4, §8): the number of
students with a completed completion record of one activity, restricted to
records with completion tracking. -/
def specDashActivityCompleted (completions : List DashCompletion) (activityId : Nat) : Nat :=
  (completions.filter (fun c =>
    (decide (c.activityId = activityId) && c.hasCompletionTracking) && c.isCompleted)).length

/-- Following the spec's words for the aggregator (§4.4): the number of
passed completion records of one activity, restricted to records with
completion tracking. -/
def specDashActivityPassed (completions : List DashCompletion) (activityId : Nat) : Nat :=
  (completions.filter (fun c =>
    (decide (c.activityId = activityId) && c.hasCompletionTracking) && c.isPassed)).length

/-- Following the spec's words for the aggregator (§4.4): the number of
failed completion records of one activity, restricted to records with
completion tracking. -/
def specDashActivityFailed (completions : List DashCompletion) (activityId : Nat) : Nat :=
  (completions.filter (fun c =>
    (decide (c.activityId = activityId) && c.hasCompletionTracking) && c.isFailed)).length

/-- The number of activities with completion tracking, as counted by
`calculateStudentStatistics` (its `trackedActivities` local). -/
def dashTrackedCount (sections : List DashSection) : Nat :=
  (sections.flatMap (fun sec => sec.activities.filter (fun a => a.hasCompletion))).length

/-- Following the spec's words for sync step 8 (§4.3): the student's completed
completion records restricted to activities with completion tracking. -/
def specSyncTrackedCompleted (allActivities : List ActivityRow)
    (completions : List CompletionRow) (studentId : Nat) : Nat :=
  (completions.filter (fun c =>
    decide (c.student_id = studentId) && c.is_completed &&
      (allActivities.filter (fun a => a.has_completion)).any
        (fun a => a.activity_id == c.activity_id))).length

/-- Following the spec's words (§4.3 step 8): the completion timestamp of the
student's most-recently-completed activity — the maximum `time_completed`
over the student's completed completion records. -/
def specLatestCompletion (completions : List CompletionRow) (studentId : Nat) : Option Nat :=
  ((completions.filter (fun c => decide (c.student_id = studentId) && c.is_completed)).filterMap
    (fun c => c.time_completed)).max?

/-! Supporting lemmas. -/

/-- The completion rows step 4 contributes for one student. -/
def step4Records (courseId now : Nat) (allActivities : List ActivityRow)
    (fetch : Nat → Except String (List MoodleStatus)) (student : MoodleUser) :
    List CompletionRow :=
  match fetch student.id with
  | Except.ok statuses => statuses.map (mkCompletionRow courseId now allActivities student.id)
  | Except.error _ => []

/-- The console log lines step 4 contributes for one student. -/
def step4Log (fetch : Nat → Except String (List MoodleStatus)) (student : MoodleUser) :
    List String :=
  match fetch student.id with
  | Except.ok _ => []
  | Except.error msg =>
      if jsIncludes msg "No completion criteria" then [] else [studentErrorLog student.id msg]

/-- Replace the wall-clock field of an activities row. -/
def withUpdatedA (t : Nat) (r : ActivityRow) : ActivityRow := { r with updated_at := t }

/-- Replace the wall-clock field of an activity-completions row. -/
def withUpdatedC (t : Nat) (r : CompletionRow) : CompletionRow := { r with updated_at := t }

/-- Replace the wall-clock field of a course-completions row. -/
def withUpdatedS (t : Nat) (r : CourseCompletionRow) : CourseCompletionRow :=
  { r with updated_at := t }

/-- Every field of a `courses` row except the wall-clock `updated_at`. -/
def CourseRow.stable (r : CourseRow) :=
  (r.course_id, r.short_name, r.full_name, r.category_id, r.category_name, r.summary,
   r.format, r.start_date, r.end_date, r.visible)

/-- Every field of an `enrollments` row except the wall-clock `updated_at`. -/
def EnrollRow.stable (r : EnrollRow) :=
  (r.course_id, r.student_id, r.student_name, r.student_email, r.student_first_name,
   r.student_last_name, r.enrollment_date, r.role, r.status)

/-- Every field of an `enrollments` row except `updated_at` and
`enrollment_date` (both can take the run's wall clock). -/
def EnrollRow.stableNoDate (r : EnrollRow) :=
  (r.course_id, r.student_id, r.student_name, r.student_email, r.student_first_name,
   r.student_last_name, r.role, r.status)

/-- Every field of an `activities` row except the wall-clock `updated_at`. -/
def ActivityRow.stable (r : ActivityRow) :=
  (r.course_id, r.activity_id, r.section_id, r.section_number, r.section_name,
   r.activity_name, r.activity_type, r.activity_url, r.description, r.visible,
   r.has_completion, r.completion_expected)

/-- Every field of an `activity_completions` row except the wall-clock
`updated_at`. -/
def CompletionRow.stable (r : CompletionRow) :=
  (r.course_id, r.student_id, r.activity_id, r.activity_name, r.activity_type,
   r.completion_state, r.is_completed, r.is_passed, r.is_failed, r.time_completed,
   r.tracking_type)

/-- Every field of a `course_completions` row except the wall-clock
`updated_at`. -/
def CourseCompletionRow.stable (r : CourseCompletionRow) :=
  (r.course_id, r.student_id, r.total_activities, r.completed_activities,
   r.completion_percentage, r.is_course_completed, r.completion_date)

/-! Concrete fixtures used by the closed counterexample and witness
theorems. -/

/-- A plain student role. -/
def cxRole : MoodleRole := { shortname := "student", roleid := 5 }

/-- A student with every access timestamp present. -/
def cxUserA : MoodleUser :=
  { id := 10, username := "u10", firstname := "A", lastname := "B",
    email := some "a@b.c", firstaccess := some 1000, lastaccess := some 2000,
    lastcourseaccess := some 2000, roles := some [cxRole] }

/-- A student with no access timestamps at all. -/
def cxUserB : MoodleUser :=
  { id := 11, username := "u11", firstname := "C", lastname := "D",
    email := none, firstaccess := none, lastaccess := none,
    lastcourseaccess := none, roles := some [cxRole] }

/-- A module with completion tracking enabled. -/
def cxModT : MoodleModule :=
  { id := 1, name := "Quiz", modname := "quiz", modplural := "Quizzes", indent := 0,
    url := none, description := none, visible := 1, visibleoncoursepage := 1,
    uservisible := none, completion := some 1, completionexpected := none, added := none }

/-- A second module with completion tracking enabled. -/
def cxModT2 : MoodleModule := { cxModT with id := 3, name := "Quiz2" }

/-- A module without completion tracking. -/
def cxModNT : MoodleModule :=
  { id := 2, name := "Label", modname := "label", modplural := "Labels", indent := 0,
    url := none, description := none, visible := 1, visibleoncoursepage := 1,
    uservisible := none, completion := some 0, completionexpected := none, added := none }

/-- A section holding one tracked and one untracked module. -/
def cxSecMixed : MoodleSection :=
  { id := 100, sectionNo := 0, name := "General", summary := none, visible := 1,
    modules := [cxModT, cxModNT] }

/-- A section holding only the untracked module. -/
def cxSecNT : MoodleSection := { cxSecMixed with modules := [cxModNT] }

/-- A section holding two tracked modules. -/
def cxSecTT : MoodleSection := { cxSecMixed with modules := [cxModT, cxModT2] }

/-- A concrete course with id 5. -/
def cxCourse : MoodleCourse :=
  { id := 5, shortname := "c5", fullname := "Course 5", categoryid := some 1,
    summary := none, format := none, startdate := some 100, enddate := none, visible := 1 }

/-- LMS data: one student, mixed tracked/untracked activities. -/
def cxLms1 : LmsData :=
  { courses := [cxCourse], enrolledUsers := [cxUserA], contents := [cxSecMixed] }

/-- LMS data: one student, no tracked activity at all. -/
def cxLmsNT : LmsData :=
  { courses := [cxCourse], enrolledUsers := [cxUserA], contents := [cxSecNT] }

/-- LMS data: one student, two tracked activities. -/
def cxLmsTT : LmsData :=
  { courses := [cxCourse], enrolledUsers := [cxUserA], contents := [cxSecTT] }

/-- LMS data: two students, two tracked activities. -/
def cxLms2 : LmsData :=
  { courses := [cxCourse], enrolledUsers := [cxUserA, cxUserB], contents := [cxSecTT] }

/-- A completed status entry for the untracked activity 2. -/
def cxStatusNT : MoodleStatus :=
  { cmid := 2, state := some 1, timecompleted := some 50, tracking := none,
    overrideby := none }

/-- Fetch returning, for every student, one completed status for the
untracked activity 2. -/
def cxFetchNT : Nat → Except String (List MoodleStatus) := fun _ => Except.ok [cxStatusNT]

/-- A completed status for the tracked activity 1 with timestamp 200. -/
def cxStatus1 : MoodleStatus :=
  { cmid := 1, state := some 1, timecompleted := some 200, tracking := none,
    overrideby := none }

/-- A completed status for the tracked activity 3 with the earlier
timestamp 100. -/
def cxStatus3 : MoodleStatus :=
  { cmid := 3, state := some 1, timecompleted := some 100, tracking := none,
    overrideby := none }

/-- Fetch returning two completed statuses whose fetch order is the reverse
of their timestamp order. -/
def cxFetchTT : Nat → Except String (List MoodleStatus) := fun _ =>
  Except.ok [cxStatus1, cxStatus3]

/-- Fetch failing for student 11 with a non-"No completion criteria" error
and succeeding for everyone else. -/
def cxFetchBoom : Nat → Except String (List MoodleStatus) := fun sid =>
  if sid = 11 then Except.error "boom" else Except.ok [cxStatus1]

/-- Fetch returning an empty status list for every student. -/
def cxFetchEmpty : Nat → Except String (List MoodleStatus) := fun _ => Except.ok []

/-- The dashboard student list for the concrete fixtures. -/
def cxDStudents : List DashStudent := [mkDashStudent cxUserA]

/-- The dashboard sections with no tracked activity. -/
def cxDSecsNT : List DashSection := [mkDashSection cxSecNT]

/-- The dashboard sections with two tracked activities. -/
def cxDSecsTT : List DashSection := [mkDashSection cxSecTT]

/-- The dashboard sections with one tracked and one untracked activity. -/
def cxDSecsMixed : List DashSection := [mkDashSection cxSecMixed]

/-- Placeholder student statistic used as the default of list lookups in
closed statements. -/
def cxDummyStat : StudentStat :=
  { studentId := 0, studentName := "", studentEmail := "", totalActivities := 0,
    activitiesCompleted := 0, activitiesPassed := 0, activitiesFailed := 0,
    activitiesRemaining := 0, completionPercentage := 0, passPercentage := 0,
    isActive := false, performanceLevel := "" }

/-- Placeholder activity statistic used as the default of list lookups in
closed statements. -/
def cxDummyAStat : ActivityStat :=
  { activityId := 0, activityName := "", activityType := "", sectionName := "",
    published := false, hasTracking := false, totalStudents := 0, studentsCompleted := 0,
    studentsPassed := 0, studentsFailed := 0, studentsNotStarted := 0,
    completionRate := 0, passRate := 0 }

/-- The dashboard completion records of the two-tracked-activities fixture. -/
def cxDComps8 : List DashCompletion :=
  getAllStudentCompletions cxDStudents cxDSecsTT cxFetchTT

/-- The first student statistic of the two-tracked-activities fixture. -/
def cxStat8 : StudentStat :=
  (calculateStudentStatistics 0 cxDStudents cxDSecsTT cxDComps8).getD 0 cxDummyStat

/-- The first activity statistic of the two-tracked-activities fixture. -/
def cxAStat8 : ActivityStat :=
  (calculateActivityStatistics cxDStudents cxDSecsTT cxDComps8).getD 0 cxDummyAStat

/-- The dashboard completion records of the mixed fixture. -/
def cxDCompsMixed : List DashCompletion :=
  getAllStudentCompletions cxDStudents cxDSecsMixed cxFetchNT

/-- The step-3 activities of the mixed fixture. -/
def cxActsMixed : List ActivityRow := flattenActivities 5 0 [cxSecMixed]

/-- The step-4 completion rows of the mixed fixture under `cxFetchNT`. -/
def cxCompsNT : List CompletionRow := (step4 5 0 [cxUserA] cxActsMixed cxFetchNT).1

/-- The step-3 activities of the two-tracked-activities fixture. -/
def cxActsTT : List ActivityRow := flattenActivities 5 0 [cxSecTT]

/-- The step-4 completion rows of the two-tracked-activities fixture under
`cxFetchTT`. -/
def cxCompsTT : List CompletionRow := (step4 5 0 [cxUserA] cxActsTT cxFetchTT).1

/-- Placeholder course-completion row used as the default of list lookups in
closed statements. -/
def cxDummyCCRow : CourseCompletionRow :=
  { course_id := 0, student_id := 0, total_activities := 0, completed_activities := 0,
    completion_percentage := 0, is_course_completed := false, completion_date := none,
    updated_at := 0 }

/-- The first course-completion row of the two-tracked-activities fixture. -/
def cxRow7 : CourseCompletionRow :=
  (step5 5 0 [cxUserA] cxActsTT cxCompsTT).getD 0 cxDummyCCRow

theorem step4_eq (courseId now : Nat) (students : List MoodleUser)
    (allActivities : List ActivityRow) (fetch : Nat → Except String (List MoodleStatus)) :
    step4 courseId now students allActivities fetch =
      (students.flatMap (step4Records courseId now allActivities fetch),
       students.flatMap (step4Log fetch)) := by
  suffices h : ∀ (ss : List MoodleUser) (acc : List CompletionRow × List String),
      ss.foldl (fun acc student =>
        match fetch student.id with
        | Except.ok statuses =>
            (acc.1 ++ statuses.map (mkCompletionRow courseId now allActivities student.id),
             acc.2)
        | Except.error msg =>
            (acc.1,
             if jsIncludes msg "No completion criteria" then acc.2
             else acc.2 ++ [studentErrorLog student.id msg])) acc =
      (acc.1 ++ ss.flatMap (step4Records courseId now allActivities fetch),
       acc.2 ++ ss.flatMap (step4Log fetch)) by
    simpa [step4] using h students ([], [])
  intro ss
  induction ss with
  | nil => intro acc; simp
  | cons s rest ih =>
      intro acc
      cases hf : fetch s.id with
      | ok statuses =>
          simp [List.foldl_cons, hf, ih, step4Records, step4Log, List.flatMap_cons]
      | error msg =>
          by_cases hc : jsIncludes msg "No completion criteria" = true
          · simp [List.foldl_cons, hf, ih, step4Records, step4Log, List.flatMap_cons, hc]
          · simp only [List.foldl_cons, hf]
            rw [if_neg hc, ih]
            simp [step4Records, step4Log, List.flatMap_cons, hf, hc]

theorem flattenActivities_shift (courseId t t' : Nat) (contents : List MoodleSection) :
    flattenActivities courseId t' contents =
      (flattenActivities courseId t contents).map (withUpdatedA t') := by
  unfold flattenActivities
  rw [List.map_flatMap]
  apply congrArg
  funext sec
  rw [List.map_map]
  rfl

theorem mkCompletionRow_shift (courseId t t' studentId : Nat) (acts : List ActivityRow)
    (status : MoodleStatus) :
    mkCompletionRow courseId t' (acts.map (withUpdatedA t')) studentId status =
      withUpdatedC t' (mkCompletionRow courseId t acts studentId status) := by
  unfold mkCompletionRow withUpdatedC
  rw [List.find?_map]
  have hp : ((fun a : ActivityRow => a.activity_id == status.cmid) ∘ withUpdatedA t') =
      (fun a : ActivityRow => a.activity_id == status.cmid) := rfl
  rw [hp]
  cases acts.find? (fun a => a.activity_id == status.cmid) <;> rfl

theorem step4Records_shift (courseId t t' : Nat) (acts : List ActivityRow)
    (fetch : Nat → Except String (List MoodleStatus)) (student : MoodleUser) :
    step4Records courseId t' (acts.map (withUpdatedA t')) fetch student =
      (step4Records courseId t acts fetch student).map (withUpdatedC t') := by
  unfold step4Records
  cases fetch student.id with
  | ok statuses =>
      rw [List.map_map]
      exact congrArg (fun f => List.map f statuses)
        (funext fun st => mkCompletionRow_shift courseId t t' student.id acts st)
  | error msg => rfl

theorem step4_completions_shift (courseId t t' : Nat) (students : List MoodleUser)
    (acts : List ActivityRow) (fetch : Nat → Except String (List MoodleStatus)) :
    (step4 courseId t' students (acts.map (withUpdatedA t')) fetch).1 =
      ((step4 courseId t students acts fetch).1).map (withUpdatedC t') := by
  rw [step4_eq, step4_eq]
  simp only
  rw [List.map_flatMap]
  apply congrArg
  funext s
  exact step4Records_shift courseId t t' acts fetch s

theorem step4_log_const (courseId t t' : Nat) (students : List MoodleUser)
    (acts acts' : List ActivityRow) (fetch : Nat → Except String (List MoodleStatus)) :
    (step4 courseId t' students acts' fetch).2 = (step4 courseId t students acts fetch).2 := by
  rw [step4_eq, step4_eq]

theorem step5_shift (courseId t t' : Nat) (students : List MoodleUser)
    (acts : List ActivityRow) (comps : List CompletionRow) :
    step5 courseId t' students (acts.map (withUpdatedA t')) (comps.map (withUpdatedC t')) =
      (step5 courseId t students acts comps).map (withUpdatedS t') := by
  simp only [step5]
  have hfa : (acts.map (withUpdatedA t')).filter (fun a => a.has_completion)
      = (acts.filter (fun a => a.has_completion)).map (withUpdatedA t') := by
    rw [List.filter_map]; rfl
  rw [hfa, List.length_map]
  by_cases h : 0 < (acts.filter (fun a => a.has_completion)).length
  · rw [if_pos h, if_pos h, List.map_map]
    apply List.map_congr_left
    intro student _
    simp only [Function.comp_apply, withUpdatedS]
    have hfc : (comps.map (withUpdatedC t')).filter
        (fun c => decide (c.student_id = student.id) && c.is_completed)
        = (comps.filter (fun c => decide (c.student_id = student.id) && c.is_completed)).map
            (withUpdatedC t') := by
      rw [List.filter_map]; rfl
    rw [hfc, List.length_map, List.getLast?_map]
    cases (comps.filter (fun c => decide (c.student_id = student.id) && c.is_completed)).getLast?
      <;> rfl
  · rw [if_neg h, if_neg h]
    rfl

theorem flatten_tracking (students : List DashStudent) (sections : List DashSection)
    (fetch : Nat → Except String (List MoodleStatus)) :
    ∀ c ∈ getAllStudentCompletions students sections fetch,
      ∃ sec ∈ sections, ∃ act ∈ sec.activities,
        c.hasCompletionTracking = act.hasCompletion := by
  intro c hc
  simp only [getAllStudentCompletions, List.mem_flatMap] at hc
  obtain ⟨student, _, hc⟩ := hc
  cases hf : fetch student.id with
  | ok statuses =>
      rw [hf] at hc
      simp only [flattenStudentCompletions, List.mem_flatMap, List.mem_map] at hc
      obtain ⟨sec, hsec, act, hact, rfl⟩ := hc
      exact ⟨sec, hsec, act, hact, rfl⟩
  | error msg =>
      rw [hf] at hc
      cases hc

theorem getD_zero_mem {α : Type} (l : List α) (d : α) (h : 0 < l.length) :
    l.getD 0 d ∈ l := by
  cases l with
  | nil => cases h
  | cons a t => exact List.mem_cons_self a t

/-- C5: every ActivityCompletion record the system constructs — both the
rows built by sync step 4 (`mkCompletionRow`) and the records of the
dashboard flattening (`flattenStudentCompletions`) — satisfies
`isCompleted = (completionState >= 1)`, `isPassed = (completionState == 2)`
and `isFailed = (completionState == 3)`; consequently passed and failed are
mutually exclusive and each implies completed. -/
theorem C5_completion_flags (courseId now studentId : Nat) (acts : List ActivityRow)
    (status : MoodleStatus) (student : DashStudent) (statuses : List MoodleStatus)
    (sections : List DashSection) (rec : DashCompletion)
    (hrec : rec ∈ flattenStudentCompletions student statuses sections) :
    ((mkCompletionRow courseId now acts studentId status).is_completed
        = decide (1 ≤ (mkCompletionRow courseId now acts studentId status).completion_state)
      ∧ (mkCompletionRow courseId now acts studentId status).is_passed
        = decide ((mkCompletionRow courseId now acts studentId status).completion_state = 2)
      ∧ (mkCompletionRow courseId now acts studentId status).is_failed
        = decide ((mkCompletionRow courseId now acts studentId status).completion_state = 3)
      ∧ ¬((mkCompletionRow courseId now acts studentId status).is_passed = true
          ∧ (mkCompletionRow courseId now acts studentId status).is_failed = true)
      ∧ ((mkCompletionRow courseId now acts studentId status).is_passed = true
          → (mkCompletionRow courseId now acts studentId status).is_completed = true)
      ∧ ((mkCompletionRow courseId now acts studentId status).is_failed = true
          → (mkCompletionRow courseId now acts studentId status).is_completed = true))
    ∧ (rec.isCompleted = decide (1 ≤ rec.completionState)
      ∧ rec.isPassed = decide (rec.completionState = 2)
      ∧ rec.isFailed = decide (rec.completionState = 3)
      ∧ ¬(rec.isPassed = true ∧ rec.isFailed = true)
      ∧ (rec.isPassed = true → rec.isCompleted = true)
      ∧ (rec.isFailed = true → rec.isCompleted = true)) := by
  constructor
  · cases hs : status.state
    · simp [mkCompletionRow, hs]
    · simp [mkCompletionRow, hs]
      all_goals omega
  · simp only [flattenStudentCompletions, List.mem_flatMap, List.mem_map] at hrec
    obtain ⟨sec, _, act, _, rfl⟩ := hrec
    refine ⟨rfl, rfl, rfl, ?_, ?_, ?_⟩ <;> simp [mkDashCompletion] <;> omega

theorem C5_completion_flags_witness :
    (mkDashCompletion (mkDashStudent cxUserA) [] (mkDashSection cxSecMixed)
        (mkDashActivity cxModT)).isCompleted
      = decide (1 ≤ (mkDashCompletion (mkDashStudent cxUserA) [] (mkDashSection cxSecMixed)
        (mkDashActivity cxModT)).completionState) :=
  (C5_completion_flags 5 0 10 [] cxStatusNT (mkDashStudent cxUserA) [] cxDSecsMixed
    (mkDashCompletion (mkDashStudent cxUserA) [] (mkDashSection cxSecMixed)
      (mkDashActivity cxModT)) (by decide)).2.1

/-- C8: for every student statistic, `passPercentage` is
`passed/completed*100` fixed to two decimals when `completed > 0` and `0`
when `completed = 0`; likewise `passRate` for every activity statistic —
the division by `completed` is guarded, never taken with a zero divisor. -/
theorem C8_pass_rates (nowMs : Nat) (students : List DashStudent)
    (sections : List DashSection) (completions : List DashCompletion)
    (st : StudentStat) (a : ActivityStat)
    (hst : st ∈ calculateStudentStatistics nowMs students sections completions)
    (ha : a ∈ calculateActivityStatistics students sections completions) :
    ((0 < st.activitiesCompleted →
        st.passPercentage
          = toFixed2 (((st.activitiesPassed : ℚ) / (st.activitiesCompleted : ℚ)) * 100))
      ∧ (st.activitiesCompleted = 0 → st.passPercentage = 0))
    ∧ ((0 < a.studentsCompleted →
        a.passRate = toFixed2 (((a.studentsPassed : ℚ) / (a.studentsCompleted : ℚ)) * 100))
      ∧ (a.studentsCompleted = 0 → a.passRate = 0)) := by
  constructor
  · simp only [calculateStudentStatistics, List.mem_map] at hst
    obtain ⟨student, _, rfl⟩ := hst
    constructor
    · intro h
      dsimp only at h ⊢
      rw [if_pos h]
    · intro h
      dsimp only at h ⊢
      rw [if_neg (by omega)]
  · simp only [calculateActivityStatistics, List.mem_flatMap, List.mem_map] at ha
    obtain ⟨sec, _, act, _, rfl⟩ := ha
    constructor
    · intro h
      dsimp only at h ⊢
      rw [if_pos h]
    · intro h
      dsimp only at h ⊢
      rw [if_neg (by omega)]

theorem C8_pass_rates_witness :
    ((0 < cxStat8.activitiesCompleted →
        cxStat8.passPercentage
          = toFixed2 (((cxStat8.activitiesPassed : ℚ) / (cxStat8.activitiesCompleted : ℚ)) * 100))
      ∧ (cxStat8.activitiesCompleted = 0 → cxStat8.passPercentage = 0))
    ∧ ((0 < cxAStat8.studentsCompleted →
        cxAStat8.passRate
          = toFixed2 (((cxAStat8.studentsPassed : ℚ) / (cxAStat8.studentsCompleted : ℚ)) * 100))
      ∧ (cxAStat8.studentsCompleted = 0 → cxAStat8.passRate = 0)) :=
  C8_pass_rates 0 cxDStudents cxDSecsTT cxDComps8 cxStat8 cxAStat8
    (getD_zero_mem _ _ (by decide)) (getD_zero_mem _ _ (by decide))

/-- C9: for a course whose activities all lack completion tracking, every
student statistic gets performance level "Poor": the completion ratio is the
JS value `0/0 = NaN`, every threshold comparison of `getPerformanceLevel`
fails, and control falls through to the final tier. -/
theorem C9_zero_trackable (nowMs : Nat) (students : List DashStudent)
    (sections : List DashSection) (fetch : Nat → Except String (List MoodleStatus))
    (h : ∀ sec ∈ sections, ∀ act ∈ sec.activities, act.hasCompletion = false) :
    ∀ st ∈ calculateStudentStatistics nowMs students sections
        (getAllStudentCompletions students sections fetch),
      st.performanceLevel = "Poor" := by
  intro st hst
  have hcomps : ∀ c ∈ getAllStudentCompletions students sections fetch,
      c.hasCompletionTracking = false := by
    intro c hc
    obtain ⟨sec, hsec, act, hact, heq⟩ := flatten_tracking students sections fetch c hc
    rw [heq]
    exact h sec hsec act hact
  have htr : (sections.flatMap (fun sec =>
      sec.activities.filter (fun a => a.hasCompletion))).length = 0 := by
    have hnil : (sections.flatMap (fun sec =>
        sec.activities.filter (fun a => a.hasCompletion))) = [] := by
      rw [List.eq_nil_iff_forall_not_mem]
      intro a ha
      simp only [List.mem_flatMap, List.mem_filter] at ha
      obtain ⟨sec, hsec, hact, hpred⟩ := ha
      rw [h sec hsec a hact] at hpred
      cases hpred
    rw [hnil]
    rfl
  simp only [calculateStudentStatistics, List.mem_map] at hst
  obtain ⟨student, _, rfl⟩ := hst
  have hfe : (getAllStudentCompletions students sections fetch).filter
      (fun c => decide (c.studentId = student.id) && c.hasCompletionTracking) = [] := by
    apply List.filter_eq_nil_iff.mpr
    intro c hc
    rw [hcomps c hc]
    simp
  dsimp only
  rw [hfe, htr]
  decide

theorem C9_zero_trackable_witness :
    ((calculateStudentStatistics 0 cxDStudents cxDSecsNT
        (getAllStudentCompletions cxDStudents cxDSecsNT cxFetchEmpty)).getD 0
          cxDummyStat).performanceLevel = "Poor" :=
  C9_zero_trackable 0 cxDStudents cxDSecsNT cxFetchEmpty (by decide) _
    (getD_zero_mem _ _ (by decide))

/-- C10: a student whose `lastcourseaccess` is absent (or the falsy zero
timestamp, which `formatTimestamp` turns into null) is classified
`isActive = false` by `isStudentActive`, for every current time and
regardless of the student's other access fields. -/
theorem C10_inactive (nowMs : Nat) (s : DashStudent) (u : MoodleUser)
    (hs : s.lastcourseaccess = none)
    (hu : u.lastcourseaccess = none ∨ u.lastcourseaccess = some 0) :
    isStudentActive nowMs s = false ∧ isStudentActive nowMs (mkDashStudent u) = false := by
  constructor
  · simp [isStudentActive, hs]
  · rcases hu with h | h <;> simp [isStudentActive, mkDashStudent, formatTimestamp, h]

theorem C10_inactive_witness :
    isStudentActive 999999999 (mkDashStudent cxUserB) = false
      ∧ isStudentActive 999999999 (mkDashStudent cxUserB) = false :=
  C10_inactive 999999999 (mkDashStudent cxUserB) cxUserB (by decide) (Or.inl (by decide))

theorem filter_count_swap {α : Type} (l : List α) (p q : α → Bool) :
    (List.filter p (List.filter q l)).length
      = (List.filter (fun c => q c && p c) l).length := by
  rw [List.filter_filter]
  apply congrArg List.length
  apply List.filter_congr
  intro c _
  cases hp : p c <;> cases hq : q c <;> rfl

theorem specDashStudentCompleted_eq (completions : List DashCompletion) (sid : Nat) :
    (List.filter (fun c => c.isCompleted)
      (List.filter (fun c => decide (c.studentId = sid) && c.hasCompletionTracking)
        completions)).length
      = specDashStudentCompleted completions sid :=
  filter_count_swap completions (fun c => c.isCompleted)
    (fun c => decide (c.studentId = sid) && c.hasCompletionTracking)

theorem specDashStudentPassed_eq (completions : List DashCompletion) (sid : Nat) :
    (List.filter (fun c => c.isPassed)
      (List.filter (fun c => decide (c.studentId = sid) && c.hasCompletionTracking)
        completions)).length
      = specDashStudentPassed completions sid :=
  filter_count_swap completions (fun c => c.isPassed)
    (fun c => decide (c.studentId = sid) && c.hasCompletionTracking)

theorem specDashStudentFailed_eq (completions : List DashCompletion) (sid : Nat) :
    (List.filter (fun c => c.isFailed)
      (List.filter (fun c => decide (c.studentId = sid) && c.hasCompletionTracking)
        completions)).length
      = specDashStudentFailed completions sid :=
  filter_count_swap completions (fun c => c.isFailed)
    (fun c => decide (c.studentId = sid) && c.hasCompletionTracking)

theorem specDashActivityCompleted_eq (completions : List DashCompletion) (aid : Nat) :
    (List.filter (fun c => c.isCompleted)
      (List.filter (fun c => decide (c.activityId = aid) && c.hasCompletionTracking)
        completions)).length
      = specDashActivityCompleted completions aid :=
  filter_count_swap completions (fun c => c.isCompleted)
    (fun c => decide (c.activityId = aid) && c.hasCompletionTracking)

theorem specDashActivityPassed_eq (completions : List DashCompletion) (aid : Nat) :
    (List.filter (fun c => c.isPassed)
      (List.filter (fun c => decide (c.activityId = aid) && c.hasCompletionTracking)
        completions)).length
      = specDashActivityPassed completions aid :=
  filter_count_swap completions (fun c => c.isPassed)
    (fun c => decide (c.activityId = aid) && c.hasCompletionTracking)

theorem specDashActivityFailed_eq (completions : List DashCompletion) (aid : Nat) :
    (List.filter (fun c => c.isFailed)
      (List.filter (fun c => decide (c.activityId = aid) && c.hasCompletionTracking)
        completions)).length
      = specDashActivityFailed completions aid :=
  filter_count_swap completions (fun c => c.isFailed)
    (fun c => decide (c.activityId = aid) && c.hasCompletionTracking)

/-- C1 (amended): the aggregator excludes activities without completion
tracking from every completion count and from the student percentage
denominator; the sync route's step 5 restricts only the percentage
denominator to trackable activities, while its `completed_activities`
numerator counts all of the student's completed completion rows with no
tracking restriction. -/
theorem C1_tracking_exclusion (nowMs : Nat) (students : List DashStudent)
    (sections : List DashSection) (completions : List DashCompletion)
    (courseId now : Nat) (epStudents : List MoodleUser) (epActs : List ActivityRow)
    (epComps : List CompletionRow) :
    ((calculateStudentStatistics nowMs students sections completions).map
        (fun st => (st.studentId, st.activitiesCompleted, st.activitiesPassed,
          st.activitiesFailed, st.completionPercentage))
      = students.map (fun student =>
          (student.id, specDashStudentCompleted completions student.id,
           specDashStudentPassed completions student.id,
           specDashStudentFailed completions student.id,
           if 0 < dashTrackedCount sections then
             toFixed2 (((specDashStudentCompleted completions student.id : ℚ)
               / (dashTrackedCount sections : ℚ)) * 100)
           else 0)))
    ∧ ((calculateActivityStatistics students sections completions).map
        (fun a => (a.activityId, a.studentsCompleted, a.studentsPassed, a.studentsFailed))
      = (sections.flatMap (fun sec => sec.activities)).map (fun act =>
          (act.activityId, specDashActivityCompleted completions act.activityId,
           specDashActivityPassed completions act.activityId,
           specDashActivityFailed completions act.activityId)))
    ∧ (0 < (epActs.filter (fun a => a.has_completion)).length →
        (step5 courseId now epStudents epActs epComps).map
            (fun row => (row.student_id, row.completed_activities, row.total_activities,
              row.completion_percentage))
          = epStudents.map (fun s =>
              (s.id,
               (epComps.filter (fun c => decide (c.student_id = s.id)
                 && c.is_completed)).length,
               (epActs.filter (fun a => a.has_completion)).length,
               toFixed2 ((((epComps.filter (fun c => decide (c.student_id = s.id)
                   && c.is_completed)).length : ℚ)
                 / ((epActs.filter (fun a => a.has_completion)).length : ℚ)) * 100)))) := by
  refine ⟨?_, ?_, ?_⟩
  · simp only [calculateStudentStatistics]
    rw [List.map_map]
    apply List.map_congr_left
    intro student _
    simp only [Function.comp_apply, dashTrackedCount]
    rw [specDashStudentCompleted_eq, specDashStudentPassed_eq, specDashStudentFailed_eq]
  · simp only [calculateActivityStatistics]
    rw [List.map_flatMap, List.map_flatMap]
    apply congrArg
    funext sec
    rw [List.map_map]
    apply List.map_congr_left
    intro act _
    simp only [Function.comp_apply]
    rw [specDashActivityCompleted_eq, specDashActivityPassed_eq, specDashActivityFailed_eq]
  · intro htr
    simp only [step5]
    rw [if_pos htr, List.map_map]
    apply List.map_congr_left
    intro s _
    simp only [Function.comp_apply]
    rw [if_pos htr]

theorem C1_tracking_exclusion_witness :
    ((calculateStudentStatistics 0 cxDStudents cxDSecsMixed cxDCompsMixed).map
        (fun st => (st.studentId, st.activitiesCompleted, st.activitiesPassed,
          st.activitiesFailed, st.completionPercentage))
      = cxDStudents.map (fun student =>
          (student.id, specDashStudentCompleted cxDCompsMixed student.id,
           specDashStudentPassed cxDCompsMixed student.id,
           specDashStudentFailed cxDCompsMixed student.id,
           if 0 < dashTrackedCount cxDSecsMixed then
             toFixed2 (((specDashStudentCompleted cxDCompsMixed student.id : ℚ)
               / (dashTrackedCount cxDSecsMixed : ℚ)) * 100)
           else 0)))
    ∧ ((step5 5 0 [cxUserA] cxActsMixed cxCompsNT).map
          (fun row => (row.student_id, row.completed_activities, row.total_activities,
            row.completion_percentage))
        = [cxUserA].map (fun s =>
            (s.id,
             (cxCompsNT.filter (fun c => decide (c.student_id = s.id)
               && c.is_completed)).length,
             (cxActsMixed.filter (fun a => a.has_completion)).length,
             toFixed2 ((((cxCompsNT.filter (fun c => decide (c.student_id = s.id)
                 && c.is_completed)).length : ℚ)
               / ((cxActsMixed.filter (fun a => a.has_completion)).length : ℚ)) * 100)))) :=
  have h := C1_tracking_exclusion 0 cxDStudents cxDSecsMixed cxDCompsMixed
    5 0 [cxUserA] cxActsMixed cxCompsNT
  ⟨h.1, h.2.2 (by decide)⟩

theorem C1_counterexample :
    ((step5 5 0 [cxUserA] cxActsMixed cxCompsNT).map (fun r => r.completed_activities)
      = [1])
    ∧ specSyncTrackedCompleted cxActsMixed cxCompsNT 10 = 0 := by decide

/-- C4 (amended): the dashboard flattening emits exactly one record per
(student, known activity) pair, defaulting the completion state to 0 when
the student has no status entry; the sync route's step 4 instead emits
exactly one row per status entry returned for the student — activities
without a status entry get no row there. -/
theorem C4_flatten_per_activity (student : DashStudent) (statuses : List MoodleStatus)
    (sections : List DashSection) (courseId now : Nat) (epStudents : List MoodleUser)
    (allActs : List ActivityRow) (fetch : Nat → Except String (List MoodleStatus)) :
    ((flattenStudentCompletions student statuses sections).map
        (fun c => (c.studentId, c.activityId))
      = (sections.flatMap (fun sec => sec.activities)).map
          (fun a => (student.id, a.activityId)))
    ∧ (∀ sec ∈ sections, ∀ act ∈ sec.activities,
        lookupStatus statuses act.activityId = none →
          (mkDashCompletion student statuses sec act).completionState = 0
          ∧ mkDashCompletion student statuses sec act
              ∈ flattenStudentCompletions student statuses sections)
    ∧ ((step4 courseId now epStudents allActs fetch).1
        = epStudents.flatMap (step4Records courseId now allActs fetch))
    ∧ (∀ s : MoodleUser, ∀ sts : List MoodleStatus, fetch s.id = Except.ok sts →
        step4Records courseId now allActs fetch s
          = sts.map (mkCompletionRow courseId now allActs s.id)) := by
  refine ⟨?_, ?_, ?_, ?_⟩
  · unfold flattenStudentCompletions
    rw [List.map_flatMap, List.map_flatMap]
    apply congrArg
    funext sec
    rw [List.map_map]
    rfl
  · intro sec hsec act hact hlook
    constructor
    · simp [mkDashCompletion, hlook]
    · unfold flattenStudentCompletions
      exact List.mem_flatMap.mpr ⟨sec, hsec, List.mem_map_of_mem _ hact⟩
  · rw [step4_eq]
  · intro s sts hok
    unfold step4Records
    rw [hok]

theorem C4_flatten_per_activity_witness :
    ((flattenStudentCompletions (mkDashStudent cxUserA) [] cxDSecsMixed).map
        (fun c => (c.studentId, c.activityId))
      = (cxDSecsMixed.flatMap (fun sec => sec.activities)).map
          (fun a => ((mkDashStudent cxUserA).id, a.activityId)))
    ∧ ((mkDashCompletion (mkDashStudent cxUserA) [] (mkDashSection cxSecMixed)
          (mkDashActivity cxModT)).completionState = 0
       ∧ mkDashCompletion (mkDashStudent cxUserA) [] (mkDashSection cxSecMixed)
           (mkDashActivity cxModT)
           ∈ flattenStudentCompletions (mkDashStudent cxUserA) [] cxDSecsMixed)
    ∧ ((step4 5 0 [cxUserA] cxActsMixed cxFetchNT).1
        = [cxUserA].flatMap (step4Records 5 0 cxActsMixed cxFetchNT))
    ∧ step4Records 5 0 cxActsMixed cxFetchNT cxUserA
        = [cxStatusNT].map (mkCompletionRow 5 0 cxActsMixed cxUserA.id) :=
  have h := C4_flatten_per_activity (mkDashStudent cxUserA) [] cxDSecsMixed
    5 0 [cxUserA] cxActsMixed cxFetchNT
  ⟨h.1, h.2.1 (mkDashSection cxSecMixed) (by decide) (mkDashActivity cxModT)
      (by decide) (by decide),
   h.2.2.1, h.2.2.2 cxUserA [cxStatusNT] rfl⟩

theorem C4_counterexample :
    (step4 5 0 [cxUserA] cxActsMixed cxFetchEmpty).1.length = 0
    ∧ [cxUserA].length * cxActsMixed.length = 2 := by decide

/-- C6 (amended): step 5 upserts one course-completion row per enrolled
student only when the course has at least one trackable activity; when
there are zero trackable activities the step is skipped entirely and no
summary row is written for any student. -/
theorem C6_summary_rows (courseId now : Nat) (students : List MoodleUser)
    (acts : List ActivityRow) (comps : List CompletionRow) :
    (0 < (acts.filter (fun a => a.has_completion)).length →
      (step5 courseId now students acts comps).map (fun r => r.student_id)
        = students.map (fun s => s.id))
    ∧ ((acts.filter (fun a => a.has_completion)).length = 0 →
      step5 courseId now students acts comps = []) := by
  constructor
  · intro h
    simp only [step5]
    rw [if_pos h, List.map_map]
    rfl
  · intro h
    simp only [step5]
    rw [if_neg (by omega)]

theorem C6_summary_rows_witness :
    ((step5 5 0 [cxUserA] cxActsTT []).map (fun r => r.student_id)
      = [cxUserA].map (fun s => s.id))
    ∧ step5 5 0 [cxUserA] (flattenActivities 5 0 [cxSecNT]) [] = [] :=
  ⟨(C6_summary_rows 5 0 [cxUserA] cxActsTT []).1 (by decide),
   (C6_summary_rows 5 0 [cxUserA] (flattenActivities 5 0 [cxSecNT]) []).2 (by decide)⟩

theorem C6_counterexample :
    (syncCourse 5 0 cxLmsNT cxFetchNT).map
        (fun r => (r.persisted.course_completions.length, (studentsOf cxLmsNT).length))
      = some (0, 1) := by decide

/-- C7 (amended): in the step-5 summary, `completion_date` is the
`time_completed` of the last row in fetch order among the student's
completed completion rows when the student completed the course (null when
that list is empty), and null when the student has not completed the
course; it is not the most-recent (maximum) completion timestamp. -/
theorem C7_completion_date (courseId now : Nat) (students : List MoodleUser)
    (acts : List ActivityRow) (comps : List CompletionRow)
    (htr : 0 < (acts.filter (fun a => a.has_completion)).length) :
    ∀ row ∈ step5 courseId now students acts comps,
      (row.is_course_completed = false → row.completion_date = none)
      ∧ (row.is_course_completed = true →
          row.completion_date =
            match (comps.filter (fun c => decide (c.student_id = row.student_id)
                && c.is_completed)).getLast? with
            | some c => c.time_completed
            | none => none) := by
  intro row hrow
  simp only [step5] at hrow
  rw [if_pos htr] at hrow
  simp only [List.mem_map] at hrow
  obtain ⟨s, _, rfl⟩ := hrow
  constructor
  · intro hF
    dsimp only at hF ⊢
    rw [hF]
    simp
  · intro hT
    dsimp only at hT ⊢
    rw [hT]
    cases hsc : List.filter (fun c => decide (c.student_id = s.id) && c.is_completed) comps
      with
    | nil => simp
    | cons a t => simp

theorem C7_completion_date_witness :
    (cxRow7.is_course_completed = false → cxRow7.completion_date = none)
    ∧ (cxRow7.is_course_completed = true →
        cxRow7.completion_date =
          match (cxCompsTT.filter (fun c => decide (c.student_id = cxRow7.student_id)
              && c.is_completed)).getLast? with
          | some c => c.time_completed
          | none => none) :=
  C7_completion_date 5 0 [cxUserA] cxActsTT cxCompsTT (by decide) cxRow7
    (getD_zero_mem _ _ (by decide))

theorem C7_counterexample :
    ((step5 5 0 [cxUserA] cxActsTT cxCompsTT).map (fun c => c.completion_date)
      = [some 100000])
    ∧ specLatestCompletion cxCompsTT 10 = some 200000 := by
  constructor
  · norm_num [step5, cxActsTT, cxCompsTT, cxSecTT, cxSecMixed, cxModT, cxModT2,
      flattenActivities, step4, mkCompletionRow, cxFetchTT, cxStatus1, cxStatus3,
      cxUserA, formatTimestamp, List.filter, List.foldl, toFixed2]
  · decide

/-- C2 (amended): when a student's per-student completion fetch throws an
error whose message does not contain "No completion criteria", the sync does
not abort — the response still reports `success: true` and every other
student's fetched completion rows are persisted — but the error message is
only written to the console log; it is NOT recorded in the result tally's
`errors` list, which step 4 never appends to. -/
theorem C2_partial_failure (courseId now : Nat) (lms : LmsData)
    (fetch : Nat → Except String (List MoodleStatus)) (bad : MoodleUser) (e : String)
    (hfound : (lms.courses.find? (fun c => c.id == courseId)).isSome)
    (_hN : 1 < (studentsOf lms).length)
    (hbad : bad ∈ studentsOf lms)
    (hberr : fetch bad.id = Except.error e)
    (hnocrit : jsIncludes e "No completion criteria" = false) :
    (syncCourse courseId now lms fetch).map (fun r => r.success) = some true
    ∧ (syncCourse courseId now lms fetch).map (fun r => r.errors) = some []
    ∧ (syncCourse courseId now lms fetch).map
        (fun r => decide (studentErrorLog bad.id e ∈ r.log)) = some true
    ∧ (∀ s ∈ studentsOf lms, ∀ sts : List MoodleStatus, fetch s.id = Except.ok sts →
        ∀ status ∈ sts,
          (syncCourse courseId now lms fetch).map
            (fun r => decide (mkCompletionRow courseId now
              (flattenActivities courseId now lms.contents) s.id status
                ∈ r.persisted.activity_completions)) = some true) := by
  obtain ⟨course, hc⟩ := Option.isSome_iff_exists.mp hfound
  refine ⟨?_, ?_, ?_, ?_⟩
  · simp [syncCourse, hc]
  · simp [syncCourse, hc]
  · simp only [syncCourse, hc, Option.map_some', Option.some.injEq, decide_eq_true_eq]
    rw [step4_eq]
    refine List.mem_flatMap.mpr ⟨bad, hbad, ?_⟩
    simp [step4Log, hberr, hnocrit]
  · intro s hs sts hok status hst
    simp only [syncCourse, hc, Option.map_some', Option.some.injEq, decide_eq_true_eq]
    rw [step4_eq]
    refine List.mem_flatMap.mpr ⟨s, hs, ?_⟩
    simp only [step4Records, hok]
    exact List.mem_map_of_mem _ hst

theorem C2_partial_failure_witness :
    (syncCourse 5 0 cxLms2 cxFetchBoom).map (fun r => r.success) = some true
    ∧ (syncCourse 5 0 cxLms2 cxFetchBoom).map (fun r => r.errors) = some []
    ∧ (syncCourse 5 0 cxLms2 cxFetchBoom).map
        (fun r => decide (studentErrorLog cxUserB.id "boom" ∈ r.log)) = some true
    ∧ (syncCourse 5 0 cxLms2 cxFetchBoom).map
        (fun r => decide (mkCompletionRow 5 0 (flattenActivities 5 0 cxLms2.contents)
          cxUserA.id cxStatus1 ∈ r.persisted.activity_completions)) = some true :=
  have h := C2_partial_failure 5 0 cxLms2 cxFetchBoom cxUserB "boom"
    (by decide) (by decide) (by decide) rfl (by decide)
  ⟨h.1, h.2.1, h.2.2.1, h.2.2.2 cxUserA (by decide) [cxStatus1] rfl cxStatus1 (by decide)⟩

theorem C2_counterexample :
    (syncCourse 5 0 cxLms2 cxFetchBoom).map
        (fun r => r.errors.any (fun m => jsIncludes m "boom")) = some false
    ∧ (syncCourse 5 0 cxLms2 cxFetchBoom).map (fun r => r.errors) = some []
    ∧ (syncCourse 5 0 cxLms2 cxFetchBoom).map (fun r => r.success) = some true := by
  refine ⟨?_, ?_, ?_⟩ <;> decide

/-- C3 (amended): two sync runs over an unchanged LMS persist record sets
that are identical on every field except the fields taken from the run's
wall clock: `updated_at` in every table, and `enrollment_date` (which falls
back to the wall clock exactly for enrolled students whose `firstaccess` is
absent or zero — for every student with a real `firstaccess` the enrollment
rows of the two runs agree on everything but `updated_at`). -/
theorem C3_idempotent_modulo_clock (courseId t1 t2 : Nat) (lms : LmsData)
    (fetch : Nat → Except String (List MoodleStatus)) :
    ((syncCourse courseId t1 lms fetch).map
        (fun r => r.persisted.courses.map CourseRow.stable)
      = (syncCourse courseId t2 lms fetch).map
          (fun r => r.persisted.courses.map CourseRow.stable))
    ∧ ((syncCourse courseId t1 lms fetch).map
        (fun r => r.persisted.enrollments.map EnrollRow.stableNoDate)
      = (syncCourse courseId t2 lms fetch).map
          (fun r => r.persisted.enrollments.map EnrollRow.stableNoDate))
    ∧ ((syncCourse courseId t1 lms fetch).map
        (fun r => r.persisted.activities.map ActivityRow.stable)
      = (syncCourse courseId t2 lms fetch).map
          (fun r => r.persisted.activities.map ActivityRow.stable))
    ∧ ((syncCourse courseId t1 lms fetch).map
        (fun r => r.persisted.activity_completions.map CompletionRow.stable)
      = (syncCourse courseId t2 lms fetch).map
          (fun r => r.persisted.activity_completions.map CompletionRow.stable))
    ∧ ((syncCourse courseId t1 lms fetch).map
        (fun r => r.persisted.course_completions.map CourseCompletionRow.stable)
      = (syncCourse courseId t2 lms fetch).map
          (fun r => r.persisted.course_completions.map CourseCompletionRow.stable))
    ∧ (∀ s ∈ studentsOf lms, (formatTimestamp s.firstaccess).isSome →
        EnrollRow.stable (mkEnrollRow courseId t1 s)
          = EnrollRow.stable (mkEnrollRow courseId t2 s)) := by
  have henroll : ∀ s ∈ studentsOf lms, (formatTimestamp s.firstaccess).isSome →
      EnrollRow.stable (mkEnrollRow courseId t1 s)
        = EnrollRow.stable (mkEnrollRow courseId t2 s) := by
    intro s _ hfa
    cases hf : formatTimestamp s.firstaccess with
    | none => rw [hf] at hfa; cases hfa
    | some ta => simp [mkEnrollRow, EnrollRow.stable, hf]
  cases hc : lms.courses.find? (fun c => c.id == courseId) with
  | none =>
      refine ⟨?_, ?_, ?_, ?_, ?_, henroll⟩ <;> simp [syncCourse, hc]
  | some course =>
      refine ⟨?_, ?_, ?_, ?_, ?_, henroll⟩
      · simp only [syncCourse, hc]
        rfl
      · simp only [syncCourse, hc, Option.map_some', Option.some.injEq]
        rw [List.map_map, List.map_map]
        rfl
      · simp only [syncCourse, hc, Option.map_some', Option.some.injEq]
        rw [flattenActivities_shift courseId t1 t2 lms.contents, List.map_map]
        rfl
      · simp only [syncCourse, hc, Option.map_some', Option.some.injEq]
        rw [flattenActivities_shift courseId t1 t2 lms.contents,
          step4_completions_shift courseId t1 t2 (studentsOf lms)
            (flattenActivities courseId t1 lms.contents) fetch,
          List.map_map]
        rfl
      · simp only [syncCourse, hc, Option.map_some', Option.some.injEq]
        rw [flattenActivities_shift courseId t1 t2 lms.contents,
          step4_completions_shift courseId t1 t2 (studentsOf lms)
            (flattenActivities courseId t1 lms.contents) fetch,
          step5_shift courseId t1 t2 (studentsOf lms)
            (flattenActivities courseId t1 lms.contents)
            ((step4 courseId t1 (studentsOf lms)
              (flattenActivities courseId t1 lms.contents) fetch).1),
          List.map_map]
        rfl

theorem C3_idempotent_modulo_clock_witness :
    ((syncCourse 5 0 cxLms1 cxFetchNT).map
        (fun r => r.persisted.courses.map CourseRow.stable)
      = (syncCourse 5 1000 cxLms1 cxFetchNT).map
          (fun r => r.persisted.courses.map CourseRow.stable))
    ∧ EnrollRow.stable (mkEnrollRow 5 0 cxUserA) = EnrollRow.stable (mkEnrollRow 5 1000 cxUserA) :=
  have h := C3_idempotent_modulo_clock 5 0 1000 cxLms1 cxFetchNT
  ⟨h.1, h.2.2.2.2.2 cxUserA (by decide) (by decide)⟩

theorem C3_counterexample :
    ¬ ((syncCourse 5 0 cxLms1 cxFetchNT).map (fun r => r.persisted.courses)
        = (syncCourse 5 1000 cxLms1 cxFetchNT).map (fun r => r.persisted.courses)) := by
  decide

end MoodleDb
